import Mathlib

/-!
Verification of the LTAD balance-assessment core (backend/app): pose metrics,
duration scoring, bilateral comparison, trend analysis, failure detection and
the video-analysis driver, shallowly embedded over `ℚ`.

Python floats are modelled as rationals.  The real-valued primitives the code
delegates to numpy/math (square root, arctan2, radian-to-degree conversion)
are collected in a `RealOps` parameter; every theorem below is proved for all
interpretations of those primitives, so in particular for the true ones.
-/

/-- The real-valued primitives the Python code takes from numpy
(`np.sqrt`, `np.arctan2`, `np.degrees`).  They are opaque parameters of the
embedding: no theorem below depends on their values. -/
structure RealOps where
  sqrt : ℚ → ℚ
  atan2 : ℚ → ℚ → ℚ
  degrees : ℚ → ℚ

/-- One interpretation of the primitives, used only to instantiate
universally quantified statements at concrete inputs. -/
def someOps : RealOps where
  sqrt := id
  atan2 := fun y x => y + x
  degrees := id

/-- One pose landmark, the `(x, y, z, visibility)` tuple of
`mediapipe_processor.py` / `metrics.py`. -/
structure Keypoint where
  x : ℚ
  y : ℚ
  z : ℚ
  visibility : ℚ

instance : Inhabited Keypoint := ⟨⟨0, 0, 0, 0⟩⟩

/-- `frame[i]` on a landmark list; every access in the embedded code is
guarded by a length check in the source, so the default is never read. -/
def landmarkAt (frame : List Keypoint) (i : ℕ) : Keypoint :=
  frame.getD i default

/-! ### constants/landmarks.py -/

def LEFT_SHOULDER : ℕ := 11
def RIGHT_SHOULDER : ℕ := 12
def LEFT_WRIST : ℕ := 15
def RIGHT_WRIST : ℕ := 16
def LEFT_HIP : ℕ := 23
def RIGHT_HIP : ℕ := 24
def LEFT_ANKLE : ℕ := 27
def RIGHT_ANKLE : ℕ := 28

/-- `FOOT_TOUCHDOWN_THRESHOLD = 0.05` -/
def FOOT_TOUCHDOWN_THRESHOLD : ℚ := 5/100

/-- `SUPPORT_FOOT_MOVEMENT_THRESHOLD = 0.05` -/
def SUPPORT_FOOT_MOVEMENT_THRESHOLD : ℚ := 5/100

/-! ### constants/scoring.py -/

/-- `DURATION_SCORE_THRESHOLDS`, in dict insertion order:
`{1: (1.0, 9.9), 2: (10.0, 14.9), 3: (15.0, 19.9), 4: (20.0, 24.9),
5: (25.0, 30.0)}`. -/
def DURATION_SCORE_THRESHOLDS : List (ℤ × ℚ × ℚ) :=
  [(1, 1, 99/10), (2, 10, 149/10), (3, 15, 199/10), (4, 20, 249/10), (5, 25, 30)]

/-- `DURATION_SCORE_LABELS` (keys 1..5 as in the source). -/
def DURATION_SCORE_LABELS (score : ℤ) : String :=
  if score = 1 then "Beginning"
  else if score = 2 then "Developing"
  else if score = 3 then "Competent"
  else if score = 4 then "Proficient"
  else if score = 5 then "Advanced"
  else ""

/-- `STABILITY_WEIGHTS` as a string-keyed dictionary. -/
def STABILITY_WEIGHTS (k : String) : Option ℚ :=
  if k = "sway_std" then some (25/100)
  else if k = "sway_velocity" then some (30/100)
  else if k = "arm_excursion" then some (25/100)
  else if k = "corrections" then some (20/100)
  else none

/-- `CORRECTION_THRESHOLD = 0.02` -/
def CORRECTION_THRESHOLD : ℚ := 2/100

/-- `REFERENCE_VALUES` as a string-keyed dictionary.  Its keys are
`sway_std_max`, `sway_velocity_max`, `arm_angle_max`, `corrections_max`. -/
def REFERENCE_VALUES (k : String) : Option ℚ :=
  if k = "sway_std_max" then some 8
  else if k = "sway_velocity_max" then some 5
  else if k = "arm_angle_max" then some 45
  else if k = "corrections_max" then some 15
  else none

/-- Python dictionary subscription `d[k]`: a missing key raises `KeyError`. -/
def dictGet (d : String → Option ℚ) (k : String) : Except String ℚ :=
  match d k with
  | some v => Except.ok v
  | none => Except.error ("KeyError: " ++ k)

/-- Python `round(x, n)` (round half to even) on the rational model. -/
def roundHalfEven (q : ℚ) : ℤ :=
  let f := ⌊q⌋
  let r := q - f
  if r < 1/2 then f
  else if 1/2 < r then f + 1
  else if f % 2 = 0 then f else f + 1

/-- `round(x, n)` with `n` decimal digits. -/
def pyRound (x : ℚ) (n : ℕ) : ℚ :=
  (roundHalfEven (x * 10 ^ n) : ℚ) / 10 ^ n

/-! ### utils/math_utils.py -/

/-- `calculate_euclidean_distance(p1, p2)`. -/
def calculate_euclidean_distance (ops : RealOps) (p1 p2 : ℚ × ℚ) : ℚ :=
  ops.sqrt ((p1.1 - p2.1) ^ 2 + (p1.2 - p2.2) ^ 2)

/-- `calculate_path_length(points)`: sum of consecutive distances. -/
def calculate_path_length (ops : RealOps) (points : List (ℚ × ℚ)) : ℚ :=
  if points.length < 2 then 0
  else
    (points.zip points.tail).foldl
      (fun acc pq => acc + calculate_euclidean_distance ops pq.1 pq.2) 0

/-- One step of `count_threshold_crossings`'s loop; the state is
`(corrections, outside)`. -/
def crossingStep (threshold center : ℚ) (st : ℕ × Bool) (value : ℚ) : ℕ × Bool :=
  let distance_from_center := |value - center|
  if !st.2 && decide (threshold < distance_from_center) then (st.1, true)
  else if st.2 && decide (distance_from_center < threshold) then (st.1 + 1, false)
  else st

/-- `count_threshold_crossings(values, threshold, center)`. -/
def count_threshold_crossings (values : List ℚ) (threshold center : ℚ) : ℕ :=
  (values.foldl (crossingStep threshold center) (0, false)).1

/-- `np.mean` (all uses in the embedded code are on non-empty lists). -/
def np_mean (xs : List ℚ) : ℚ := xs.sum / xs.length

/-- `np.std` (population standard deviation, ddof = 0). -/
def np_std (ops : RealOps) (xs : List ℚ) : ℚ :=
  ops.sqrt (np_mean (xs.map (fun x => (x - np_mean xs) ^ 2)))

/-! ### services/metrics.py -/

/-- The dictionary `MetricsCalculator.calculate_all` returns.  The source's
key `arm_asymmetry_ratio` is the field `arm_asymmetry` here (the shorter
name of the local variable at metrics.py:62). -/
structure Metrics where
  duration_seconds : ℚ
  stability_score : ℚ
  sway_std_x : ℚ
  sway_std_y : ℚ
  sway_path_length : ℚ
  sway_velocity : ℚ
  arm_excursion_left : ℚ
  arm_excursion_right : ℚ
  arm_asymmetry : ℚ
  corrections_count : ℕ
  duration_score : ℤ
  duration_score_label : String

/-- `MetricsCalculator.__init__`'s stored state. -/
structure MetricsCalculator where
  landmarks : List (List Keypoint)
  timestamps : List ℚ
  duration : ℚ
  failure_reason : String
  leg_tested : String

/-- `MetricsCalculator._empty_metrics`. -/
def _empty_metrics : Metrics :=
  { duration_seconds := 0, stability_score := 0, sway_std_x := 0, sway_std_y := 0
    sway_path_length := 0, sway_velocity := 0, arm_excursion_left := 0
    arm_excursion_right := 0, arm_asymmetry := 1, corrections_count := 0
    duration_score := 1, duration_score_label := "Beginning" }

/-- `MetricsCalculator._get_hip_trajectory`. -/
def _get_hip_trajectory (c : MetricsCalculator) : List (ℚ × ℚ) :=
  c.landmarks.map (fun frame =>
    let left_hip := landmarkAt frame LEFT_HIP
    let right_hip := landmarkAt frame RIGHT_HIP
    ((left_hip.x + right_hip.x) / 2, (left_hip.y + right_hip.y) / 2))

/-- `MetricsCalculator._calculate_sway_std`. -/
def _calculate_sway_std (ops : RealOps) (hip_trajectory : List (ℚ × ℚ)) : ℚ × ℚ :=
  if hip_trajectory.isEmpty then (0, 0)
  else (np_std ops (hip_trajectory.map Prod.fst),
        np_std ops (hip_trajectory.map Prod.snd))

/-- The per-frame-pair angular movement of one arm in
`MetricsCalculator._calculate_arm_excursion`: the absolute degree change of
the shoulder-to-wrist angle between two consecutive frames. -/
def armDelta (ops : RealOps) (shoulderIdx wristIdx : ℕ)
    (prev_frame curr_frame : List Keypoint) : ℚ :=
  let shoulder_prev := landmarkAt prev_frame shoulderIdx
  let wrist_prev := landmarkAt prev_frame wristIdx
  let shoulder_curr := landmarkAt curr_frame shoulderIdx
  let wrist_curr := landmarkAt curr_frame wristIdx
  let angle_prev := ops.atan2 (wrist_prev.y - shoulder_prev.y) (wrist_prev.x - shoulder_prev.x)
  let angle_curr := ops.atan2 (wrist_curr.y - shoulder_curr.y) (wrist_curr.x - shoulder_curr.x)
  |ops.degrees (angle_curr - angle_prev)|

/-- `MetricsCalculator._calculate_arm_excursion`: totals over consecutive
frame pairs, `(left_total, right_total)`. -/
def _calculate_arm_excursion (ops : RealOps) (c : MetricsCalculator) : ℚ × ℚ :=
  (c.landmarks.zip c.landmarks.tail).foldl
    (fun totals pq =>
      (totals.1 + armDelta ops LEFT_SHOULDER LEFT_WRIST pq.1 pq.2,
       totals.2 + armDelta ops RIGHT_SHOULDER RIGHT_WRIST pq.1 pq.2))
    (0, 0)

/-- `MetricsCalculator._count_corrections`. -/
def _count_corrections (hip_trajectory : List (ℚ × ℚ)) : ℕ :=
  if hip_trajectory.isEmpty then 0
  else
    let x_values := hip_trajectory.map Prod.fst
    count_threshold_crossings x_values CORRECTION_THRESHOLD (np_mean x_values)

/-- `arm_asymmetry = arm_left / arm_right if arm_right > 0 else 1.0`
(metrics.py:62). -/
def arm_asymmetry_of (arm_left arm_right : ℚ) : ℚ :=
  if 0 < arm_right then arm_left / arm_right else 1

/-- `MetricsCalculator._calculate_stability_score`: dictionary lookups can
raise `KeyError`, so the result is an `Except`. -/
def _calculate_stability_score (sway_std sway_velocity arm_excursion : ℚ)
    (corrections : ℕ) : Except String ℚ := do
  let ref_sway ← dictGet REFERENCE_VALUES "sway_std_max"
  let norm_sway := min (sway_std / ref_sway) 1
  let ref_velocity ← dictGet REFERENCE_VALUES "sway_velocity_max"
  let norm_velocity := min (sway_velocity / ref_velocity) 1
  let ref_arm ← dictGet REFERENCE_VALUES "arm_excursion_max"
  let norm_arm := min (arm_excursion / ref_arm) 1
  let ref_corrections ← dictGet REFERENCE_VALUES "corrections_max"
  let norm_corrections := min ((corrections : ℚ) / ref_corrections) 1
  let w_sway ← dictGet STABILITY_WEIGHTS "sway_std"
  let w_velocity ← dictGet STABILITY_WEIGHTS "sway_velocity"
  let w_arm ← dictGet STABILITY_WEIGHTS "arm_excursion"
  let w_corrections ← dictGet STABILITY_WEIGHTS "corrections"
  let weighted_avg := w_sway * norm_sway + w_velocity * norm_velocity +
    w_arm * norm_arm + w_corrections * norm_corrections
  let stability_score := (1 - weighted_avg) * 100
  return max 0 (min 100 stability_score)

/-- The `for`-loop of `get_duration_score` over the thresholds dict:
first matching range wins, `None` when the loop falls through. -/
def lookup_duration_score : List (ℤ × ℚ × ℚ) → ℚ → Option (ℤ × String)
  | [], _ => none
  | t :: rest, duration =>
      if t.2.1 ≤ duration ∧ duration ≤ t.2.2 then
        some (t.1, DURATION_SCORE_LABELS t.1)
      else lookup_duration_score rest duration

/-- `get_duration_score(duration)` with the `(1, "Beginning")` fallback. -/
def get_duration_score (duration : ℚ) : ℤ × String :=
  (lookup_duration_score DURATION_SCORE_THRESHOLDS duration).getD (1, "Beginning")

/-- `MetricsCalculator.calculate_all`. -/
def calculate_all (ops : RealOps) (c : MetricsCalculator) : Except String Metrics :=
  if c.landmarks.isEmpty then Except.ok _empty_metrics
  else do
    let hip_trajectory := _get_hip_trajectory c
    let sway_stds := _calculate_sway_std ops hip_trajectory
    let sway_path_length := calculate_path_length ops hip_trajectory
    let sway_velocity := if 0 < c.duration then sway_path_length / c.duration else 0
    let arms := _calculate_arm_excursion ops c
    let arm_asymmetry := arm_asymmetry_of arms.1 arms.2
    let corrections := _count_corrections hip_trajectory
    let stability_score ← _calculate_stability_score (sway_stds.1 + sway_stds.2)
      sway_velocity ((arms.1 + arms.2) / 2) corrections
    let ds := get_duration_score c.duration
    return { duration_seconds := pyRound c.duration 2
             stability_score := pyRound stability_score 2
             sway_std_x := pyRound sway_stds.1 6
             sway_std_y := pyRound sway_stds.2 6
             sway_path_length := pyRound sway_path_length 6
             sway_velocity := pyRound sway_velocity 6
             arm_excursion_left := pyRound arms.1 2
             arm_excursion_right := pyRound arms.2 2
             arm_asymmetry := pyRound arm_asymmetry 2
             corrections_count := corrections
             duration_score := ds.1
             duration_score_label := ds.2 }

/-! ### services/trend_analyzer.py -/

/-- One entry of `_detect_direction_changes`'s result list. -/
structure DirectionChange where
  at_index : ℕ
  date : String
  from_direction : String
  to_direction : String
  from_score : ℚ
  to_score : ℚ

/-- The step direction of one consecutive pair (5% threshold):
`"up"`, `"down"` or `"flat"`. -/
def stepDirection (prev_score curr_score : ℚ) : String :=
  if prev_score * (105/100) < curr_score then "up"
  else if curr_score < prev_score * (95/100) then "down"
  else "flat"

/-- The loop of `_detect_direction_changes`: `i` is the index of the current
score, `current_direction` the last non-flat direction seen (`None` at
start). -/
def ddcLoop (dates : List String) :
    ℕ → List ℚ → Option String → List DirectionChange
  | i, prev_score :: curr_score :: rest, current_direction =>
      let step_direction := stepDirection prev_score curr_score
      let event :=
        if current_direction.isSome ∧ step_direction ≠ "flat" ∧
            some step_direction ≠ current_direction then
          [{ at_index := i, date := dates.getD i "",
             from_direction := current_direction.getD "",
             to_direction := step_direction,
             from_score := prev_score, to_score := curr_score }]
        else []
      let new_direction :=
        if step_direction ≠ "flat" then some step_direction else current_direction
      event ++ ddcLoop dates (i + 1) (curr_score :: rest) new_direction
  | _, _, _ => []

/-- `_detect_direction_changes(scores, dates)`. -/
def _detect_direction_changes (scores : List ℚ) (dates : List String) :
    List DirectionChange :=
  ddcLoop dates 1 scores none

/-- `scores[-3:]` for the ≥4-record branch of `_detect_trend`. -/
def recent_window (scores : List ℚ) : List ℚ := scores.drop (scores.length - 3)

/-- `scores[:-3]` for the ≥4-record branch of `_detect_trend`. -/
def older_window (scores : List ℚ) : List ℚ := scores.take (scores.length - 3)

/-- `recent_avg = sum(recent_window) / len(recent_window)`. -/
def recent_avg (scores : List ℚ) : ℚ :=
  (recent_window scores).sum / (recent_window scores).length

/-- `older_avg = sum(older_window) / len(older_window)`. -/
def older_avg (scores : List ℚ) : ℚ :=
  (older_window scores).sum / (older_window scores).length

/-- `_detect_trend(scores, dates)` returning
`(trend, strength, direction_changes)`.  (In the 2–3-record fallback the
source divides by `scores[0]`; the rational model makes that division total,
which is only reachable outside the claims proved below.) -/
def _detect_trend (scores : List ℚ) (dates : List String) :
    String × String × List DirectionChange :=
  if scores.length < 2 then ("stable", "slight", [])
  else
    let direction_changes := _detect_direction_changes scores dates
    if 4 ≤ scores.length then
      if older_avg scores * (110/100) < recent_avg scores then
        ("improving",
         if older_avg scores * (125/100) < recent_avg scores then "significant"
         else "moderate", direction_changes)
      else if recent_avg scores < older_avg scores * (90/100) then
        ("declining",
         if recent_avg scores < older_avg scores * (75/100) then "significant"
         else "moderate", direction_changes)
      else ("stable", "slight", direction_changes)
    else
      let first_score := scores.headD 0
      let last_score := scores.getLastD 0
      let pct_change := (last_score - first_score) / first_score * 100
      let trend :=
        if 10 < pct_change then "improving"
        else if pct_change < -10 then "declining"
        else "stable"
      let strength :=
        if 25 ≤ |pct_change| then "significant"
        else if 10 ≤ |pct_change| then "moderate"
        else "slight"
      (trend, strength, direction_changes)

/-! ### services/bilateral_comparison.py -/

/-- The metric fields `calculate_bilateral_comparison` reads from each leg's
metrics dictionary. -/
structure BilatMetrics where
  hold_time : ℚ
  sway_velocity : ℚ
  arm_angle_left : ℚ
  arm_angle_right : ℚ
  corrections_count : ℤ

/-- The dictionary `calculate_bilateral_comparison` returns.  The source's
key `sway_symmetry_score` is kept; `duration_difference_pct` likewise. -/
structure BilateralComparison where
  duration_difference : ℚ
  duration_difference_pct : ℚ
  dominant_leg : String
  sway_difference : ℚ
  sway_symmetry_score : ℚ
  arm_angle_difference : ℚ
  corrections_difference : ℤ
  overall_symmetry_score : ℚ
  symmetry_assessment : String

/-- `duration_difference = abs(left_hold - right_hold)`. -/
def bcDurationDifference (L R : BilatMetrics) : ℚ := |L.hold_time - R.hold_time|

/-- `duration_difference_pct` (`0.0` when `max(left, right) <= 0`). -/
def bcDurationPct (L R : BilatMetrics) : ℚ :=
  if 0 < max L.hold_time R.hold_time then
    bcDurationDifference L R / max L.hold_time R.hold_time * 100
  else 0

/-- `dominant_leg` (20% threshold, then the larger hold time). -/
def bcDominantLeg (L R : BilatMetrics) : String :=
  if bcDurationPct L R < 20 then "balanced"
  else if R.hold_time < L.hold_time then "left"
  else "right"

/-- `sway_difference = abs(left_sway - right_sway)`. -/
def bcSwayDifference (L R : BilatMetrics) : ℚ :=
  |L.sway_velocity - R.sway_velocity|

/-- `avg_sway = (left_sway + right_sway) / 2`. -/
def bcAvgSway (L R : BilatMetrics) : ℚ := (L.sway_velocity + R.sway_velocity) / 2

/-- `sway_symmetry_score` (`1.0` when `avg_sway <= 0`). -/
def bcSwaySymmetry (L R : BilatMetrics) : ℚ :=
  if 0 < bcAvgSway L R then 1 - min (bcSwayDifference L R / bcAvgSway L R) 1
  else 1

/-- `arm_angle_difference = abs(left_arm_avg - right_arm_avg)`. -/
def bcArmAngleDifference (L R : BilatMetrics) : ℚ :=
  |(L.arm_angle_left + L.arm_angle_right) / 2 -
    (R.arm_angle_left + R.arm_angle_right) / 2|

/-- `corrections_difference = left_corrections - right_corrections` (signed). -/
def bcCorrectionsDifference (L R : BilatMetrics) : ℤ :=
  L.corrections_count - R.corrections_count

/-- `overall_symmetry_score` before clamping: the 0.5/0.3/0.1/0.1 blend of
the four component percentages, each floored at 0. -/
def bcOverallRaw (L R : BilatMetrics) : ℚ :=
  max 0 (100 - bcDurationPct L R) * (50/100) +
  (bcSwaySymmetry L R * 100) * (30/100) +
  max 0 (100 - bcArmAngleDifference L R / 15 * 100) * (10/100) +
  max 0 (100 - (|bcCorrectionsDifference L R| : ℚ) / 5 * 100) * (10/100)

/-- `overall_symmetry_score` clamped to `[0, 100]`. -/
def bcOverall (L R : BilatMetrics) : ℚ := max 0 (min 100 (bcOverallRaw L R))

/-- `symmetry_assessment` buckets. -/
def bcAssessment (L R : BilatMetrics) : String :=
  if 85 ≤ bcOverall L R then "excellent"
  else if 70 ≤ bcOverall L R then "good"
  else if 50 ≤ bcOverall L R then "fair"
  else "poor"

/-- Swapping the two legs' record labels: `left` and `right` trade places,
anything else (i.e. `balanced`) is fixed. -/
def swap_leg_label (s : String) : String :=
  if s = "left" then "right" else if s = "right" then "left" else s

/-- `calculate_bilateral_comparison(left_metrics, right_metrics)`. -/
def calculate_bilateral_comparison (L R : BilatMetrics) : BilateralComparison :=
  { duration_difference := pyRound (bcDurationDifference L R) 1
    duration_difference_pct := pyRound (bcDurationPct L R) 1
    dominant_leg := bcDominantLeg L R
    sway_difference := pyRound (bcSwayDifference L R) 1
    sway_symmetry_score := pyRound (bcSwaySymmetry L R) 2
    arm_angle_difference := pyRound (bcArmAngleDifference L R) 1
    corrections_difference := bcCorrectionsDifference L R
    overall_symmetry_score := pyRound (bcOverall L R) 1
    symmetry_assessment := bcAssessment L R }

/-! ### services/mediapipe_processor.py -/

/-- Modelled from the spec: the external pose-estimation tracker
(MediaPipe's `PoseLandmarker.detect_for_video`, not part of this
repository's sources) "requires monotonically increasing timestamps across
all frames" (create_landmarker docstring; spec §4.2: violating strict
monotonicity "is a programming error (fatal, not recovered)").  `last_ms` is
its internal last-seen timestamp; `detect` is the opaque per-frame detection
result (frames are modelled as opaque identifiers `ℕ`). -/
structure Landmarker where
  last_ms : ℤ
  detect : ℕ → ℤ → Option (List Keypoint)

/-- Modelled from the spec: `detect_for_video` fails fatally on a
non-increasing timestamp and otherwise returns the optional pose for the
frame, advancing the internal timestamp. -/
def detect_for_video (lmk : Landmarker) (frame : ℕ) (timestamp_ms : ℤ) :
    Except String (Landmarker × Option (List Keypoint)) :=
  if timestamp_ms ≤ lmk.last_ms then
    Except.error "Input timestamp must be monotonically increasing"
  else Except.ok ({ lmk with last_ms := timestamp_ms }, lmk.detect frame timestamp_ms)

/-- `PoseProcessor`'s state: the owned landmarker plus `frame_count` and
`last_timestamp_ms` (initialised to -1). -/
structure PoseProcessor where
  landmarker : Landmarker
  frame_count : ℕ
  last_timestamp_ms : ℤ

/-- `PoseProcessor.__init__` with a fresh landmarker built around the given
detection oracle. -/
def PoseProcessor.init (detect : ℕ → ℤ → Option (List Keypoint)) : PoseProcessor :=
  { landmarker := { last_ms := -1, detect := detect }, frame_count := 0
    last_timestamp_ms := -1 }

/-- `PoseProcessor.process_frame`: increments `frame_count`, logs (no
effect), calls `detect_for_video` (whose fatal error is not caught), then
records the timestamp; returns the optional 33-landmark list. -/
def PoseProcessor.process_frame (p : PoseProcessor) (frame : ℕ)
    (timestamp_ms : ℤ) : Except String (PoseProcessor × Option (List Keypoint)) :=
  let p := { p with frame_count := p.frame_count + 1 }
  match detect_for_video p.landmarker frame timestamp_ms with
  | Except.error e => Except.error e
  | Except.ok (lmk, result) =>
      let p := { p with landmarker := lmk, last_timestamp_ms := timestamp_ms }
      match result with
      | none => Except.ok (p, none)
      | some pose => Except.ok (p, some pose)

/-- `FailureDetector`'s state. -/
structure FailureDetector where
  leg_tested : String
  support_ankle_idx : ℕ
  raised_ankle_idx : ℕ
  support_ankle_initial : Option Keypoint

/-- `FailureDetector.__init__(leg_tested)`. -/
def FailureDetector.init (leg_tested : String) : FailureDetector :=
  if leg_tested = "left" then
    { leg_tested := leg_tested, support_ankle_idx := LEFT_ANKLE
      raised_ankle_idx := RIGHT_ANKLE, support_ankle_initial := none }
  else
    { leg_tested := leg_tested, support_ankle_idx := RIGHT_ANKLE
      raised_ankle_idx := LEFT_ANKLE, support_ankle_initial := none }

/-- `FailureDetector._check_foot_touchdown`. -/
def _check_foot_touchdown (d : FailureDetector) (landmarks : List Keypoint) : Bool :=
  let raised_ankle := landmarkAt landmarks d.raised_ankle_idx
  let support_ankle := landmarkAt landmarks d.support_ankle_idx
  decide (|raised_ankle.y - support_ankle.y| < FOOT_TOUCHDOWN_THRESHOLD)

/-- `FailureDetector._check_support_foot_moved`. -/
def _check_support_foot_moved (ops : RealOps) (d : FailureDetector)
    (landmarks : List Keypoint) : Bool :=
  match d.support_ankle_initial with
  | none => false
  | some initial =>
      let current := landmarkAt landmarks d.support_ankle_idx
      let displacement :=
        ops.sqrt ((current.x - initial.x) ^ 2 + (current.y - initial.y) ^ 2)
      decide (SUPPORT_FOOT_MOVEMENT_THRESHOLD < displacement)

/-- `FailureDetector.check_failure(landmarks, timestamp)`: the optional
failure reason plus the (possibly updated) detector state. -/
def FailureDetector.check_failure (ops : RealOps) (d : FailureDetector)
    (landmarks : List Keypoint) (timestamp : ℚ) :
    Option String × FailureDetector :=
  if landmarks.length ≠ 33 then (none, d)
  else if timestamp < 3 then
    (none,
     if d.support_ankle_initial.isNone then
       { d with support_ankle_initial := some (landmarkAt landmarks d.support_ankle_idx) }
     else d)
  else if _check_foot_touchdown d landmarks then (some "foot_touchdown", d)
  else if _check_support_foot_moved ops d landmarks then
    (some "support_foot_moved", d)
  else (none, d)

/-! ### services/analysis.py -/

/-- The fields of `analyze_video`'s result that the numeric core produces
(the cloud-storage URL of the raw-keypoints artifact is a boundary concern
and is omitted). -/
structure AnalysisResult where
  filtered_landmarks : List (List Keypoint)
  timestamps : List ℚ
  duration : ℚ
  failure_reason : String

/-- The upfront clip-duration validation of `analyze_video`
(analysis.py:52-65). -/
def duration_check (client_duration : ℚ) : Except String Unit :=
  if client_duration < 5 then Except.error "Video is too short"
  else if 40 < client_duration then Except.error "Video is too long"
  else Except.ok ()

/-- The frame loop of `analyze_video`: processes each `(frame, timestamp)`
pair, collects landmarks and timestamps, breaks on a detected failure or
past 35 seconds; accumulates
`(frames_processed, frames_with_pose, raw_landmarks, timestamps,
failure_reason)`.  `int(timestamp * 1000)` is `⌊·⌋` (timestamps are
non-negative in the pipeline). -/
def analysisLoop (ops : RealOps) :
    List (ℕ × ℚ) → PoseProcessor → FailureDetector →
    ℕ → ℕ → List (List Keypoint) → List ℚ → String →
    Except String (ℕ × ℕ × List (List Keypoint) × List ℚ × String)
  | [], _, _, fp, fwp, raw, tss, reason => Except.ok (fp, fwp, raw, tss, reason)
  | (frame, timestamp) :: rest, proc, det, fp, fwp, raw, tss, reason =>
      let fp := fp + 1
      let timestamp_ms : ℤ := ⌊timestamp * 1000⌋
      match proc.process_frame frame timestamp_ms with
      | Except.error e => Except.error e
      | Except.ok (proc, olms) =>
          match olms with
          | some landmarks =>
              let fwp := fwp + 1
              let raw := raw ++ [landmarks]
              let tss := tss ++ [timestamp]
              match det.check_failure ops landmarks timestamp with
              | (some failure, _) => Except.ok (fp, fwp, raw, tss, failure)
              | (none, det) =>
                  if 35 < timestamp then Except.ok (fp, fwp, raw, tss, reason)
                  else analysisLoop ops rest proc det fp fwp raw tss reason
          | none =>
              if 35 < timestamp then Except.ok (fp, fwp, raw, tss, reason)
              else analysisLoop ops rest proc det fp fwp raw tss reason

/-- `analyze_video`: duration validation, frame loop, post-loop data-quality
validation, filtering (the scipy low-pass filter is the opaque parameter
`filter_fn`) and result assembly.  `detect` is the pose-detection oracle
and `frames` the output of `extract_frames`. -/
def analyze_video (ops : RealOps)
    (filter_fn : List (List Keypoint) → List (List Keypoint))
    (detect : ℕ → ℤ → Option (List Keypoint))
    (leg_tested : String) (client_duration : ℚ) (frames : List (ℕ × ℚ)) :
    Except String AnalysisResult :=
  match duration_check client_duration with
  | Except.error e => Except.error e
  | Except.ok _ =>
      match analysisLoop ops frames (PoseProcessor.init detect)
          (FailureDetector.init leg_tested) 0 0 [] [] "time_complete" with
      | Except.error e => Except.error e
      | Except.ok (fp, fwp, raw, tss, reason) =>
          if fp = 0 then Except.error "No frames could be extracted from video"
          else if fwp = 0 then Except.error "No person detected in video"
          else if (fwp : ℚ) / (fp : ℚ) < 1/2 then
            Except.error "Person detected in less than 50 percent of frames"
          else
            Except.ok { filtered_landmarks := filter_fn raw, timestamps := tss
                        duration := tss.getLastD 0, failure_reason := reason }

/-! ## Theorems -/

/-- Case analysis of `get_duration_score`: the five ranges in dict order,
then the fallback. -/
lemma get_duration_score_cases (d : ℚ) :
    get_duration_score d =
      if 1 ≤ d ∧ d ≤ 99/10 then (1, "Beginning")
      else if 10 ≤ d ∧ d ≤ 149/10 then (2, "Developing")
      else if 15 ≤ d ∧ d ≤ 199/10 then (3, "Competent")
      else if 20 ≤ d ∧ d ≤ 249/10 then (4, "Proficient")
      else if 25 ≤ d ∧ d ≤ 30 then (5, "Advanced")
      else (1, "Beginning") := by
  simp only [get_duration_score, DURATION_SCORE_THRESHOLDS, lookup_duration_score,
    DURATION_SCORE_LABELS]
  split_ifs <;> simp_all

/-- C2: the claim's monotone five-plateau shape fails between the bands: the
thresholds dict leaves the decimal gaps (9.9,10.0), (14.9,15.0), (19.9,20.0),
(24.9,25.0) uncovered, so e.g. 14.95 falls through to the fallback score 1
although 14.9 scores 2, and values above the 30-second ceiling also fall
through to 1, not 5.  Monotonicity on [1,30) is refuted at 14.9 ≤ 14.95. -/
theorem C2_duration_counterexample :
    ((get_duration_score (149/10)).1 = 2 ∧ (get_duration_score (1495/100)).1 = 1 ∧
      (get_duration_score 31).1 = 1) ∧
    ¬(∀ d1 d2 : ℚ, 1 ≤ d1 → d1 ≤ d2 → d2 < 30 →
        (get_duration_score d1).1 ≤ (get_duration_score d2).1) := by
  have e1 : (get_duration_score (149/10)).1 = 2 := by
    rw [get_duration_score_cases]; norm_num
  have e2 : (get_duration_score (1495/100)).1 = 1 := by
    rw [get_duration_score_cases]; norm_num
  have e3 : (get_duration_score (31 : ℚ)).1 = 1 := by
    rw [get_duration_score_cases]; norm_num
  refine ⟨⟨e1, e2, e3⟩, fun h => ?_⟩
  have h1 := h (149/10) (1495/100) (by norm_num) (by norm_num) (by norm_num)
  rw [e1, e2] at h1
  exact absurd h1 (by norm_num)

/-- C2 (amended): on hold times that are whole tenths of a second,
`get_duration_score` is the non-decreasing five-plateau step function on
[1.0, 30.0] (1.0–9.9→1, 10.0–14.9→2, 15.0–19.9→3, 20.0–24.9→4,
25.0–30.0→5); values below the 1-second floor map to the fallback score 1,
and values above the 30-second ceiling also map to the fallback score 1
(not 5). -/
theorem C2_duration_amended (k : ℤ) (hk : 10 ≤ k) (hk300 : k ≤ 300) :
    (get_duration_score ((k : ℚ) / 10)).1 =
      (if k ≤ 99 then 1 else if k ≤ 149 then 2 else if k ≤ 199 then 3
       else if k ≤ 249 then 4 else 5) ∧
    (∀ d : ℚ, d < 1 → (get_duration_score d).1 = 1) ∧
    (∀ d : ℚ, 30 < d → (get_duration_score d).1 = 1) := by
  refine ⟨?_, fun d hd => ?_, fun d hd => ?_⟩
  · have hq : (10 : ℚ) ≤ (k : ℚ) := by exact_mod_cast hk
    have hq300 : (k : ℚ) ≤ 300 := by exact_mod_cast hk300
    rw [get_duration_score_cases]
    by_cases h99 : k ≤ 99
    · have hc : (k : ℚ) ≤ 99 := by exact_mod_cast h99
      rw [if_pos ⟨by linarith, by linarith⟩, if_pos h99]
    · have hc : (100 : ℚ) ≤ (k : ℚ) := by exact_mod_cast (by omega : (100:ℤ) ≤ k)
      rw [if_neg (fun hx => absurd hx.2 (by push_neg; linarith)), if_neg h99]
      by_cases h149 : k ≤ 149
      · have hc2 : (k : ℚ) ≤ 149 := by exact_mod_cast h149
        rw [if_pos ⟨by linarith, by linarith⟩, if_pos h149]
      · have hc2 : (150 : ℚ) ≤ (k : ℚ) := by exact_mod_cast (by omega : (150:ℤ) ≤ k)
        rw [if_neg (fun hx => absurd hx.2 (by push_neg; linarith)), if_neg h149]
        by_cases h199 : k ≤ 199
        · have hc3 : (k : ℚ) ≤ 199 := by exact_mod_cast h199
          rw [if_pos ⟨by linarith, by linarith⟩, if_pos h199]
        · have hc3 : (200 : ℚ) ≤ (k : ℚ) := by exact_mod_cast (by omega : (200:ℤ) ≤ k)
          rw [if_neg (fun hx => absurd hx.2 (by push_neg; linarith)), if_neg h199]
          by_cases h249 : k ≤ 249
          · have hc4 : (k : ℚ) ≤ 249 := by exact_mod_cast h249
            rw [if_pos ⟨by linarith, by linarith⟩, if_pos h249]
          · have hc4 : (250 : ℚ) ≤ (k : ℚ) := by exact_mod_cast (by omega : (250:ℤ) ≤ k)
            rw [if_neg (fun hx => absurd hx.2 (by push_neg; linarith)), if_neg h249]
            rw [if_pos ⟨by linarith, by linarith⟩]
  · rw [get_duration_score_cases]
    split_ifs with h1 h2 h3 h4 h5
    · rfl
    · exact absurd h2.1 (by linarith)
    · exact absurd h3.1 (by linarith)
    · exact absurd h4.1 (by linarith)
    · exact absurd h5.1 (by linarith)
    · rfl
  · rw [get_duration_score_cases]
    split_ifs with h1 h2 h3 h4 h5
    · exact absurd h1.2 (by push_neg; linarith)
    · exact absurd h2.2 (by push_neg; linarith)
    · exact absurd h3.2 (by push_neg; linarith)
    · exact absurd h4.2 (by push_neg; linarith)
    · exact absurd h5.2 (by push_neg; linarith)
    · rfl

/-- C2 witness: 14.9 seconds scores 2 ("Developing"). -/
theorem C2_duration_amended_witness :
    (get_duration_score (((149 : ℤ) : ℚ) / 10)).1 = 2 := by
  have h := (C2_duration_amended 149 (by norm_num) (by norm_num)).1
  norm_num at h
  exact h

/-- C6: the claim's "large finite sentinel" clause is false: with a nonzero
left arm excursion and a zero right (denominator) excursion the code's
`arm_left / arm_right if arm_right > 0 else 1.0` yields exactly 1.0. -/
theorem C6_asymmetry_counterexample :
    (45 : ℚ) ≠ 0 ∧ arm_asymmetry_of 45 0 = 1 := by
  constructor
  · norm_num
  · simp [arm_asymmetry_of]

/-- C6 (amended): `arm_asymmetry_ratio` equals left/right (= |left|/|right|,
both excursions being nonnegative) when the right side is positive, is 1.0
when both sides are zero, and is 1.0 — not a large finite sentinel — whenever
the denominator (right side) is zero, including when the left side is
nonzero. -/
theorem C6_asymmetry_amended (l r : ℚ) (hl : 0 ≤ l) (hr : 0 ≤ r) :
    (0 < r → arm_asymmetry_of l r = |l| / |r|) ∧
    (l = 0 → r = 0 → arm_asymmetry_of l r = 1) ∧
    (r = 0 → arm_asymmetry_of l r = 1) := by
  refine ⟨fun h => ?_, fun h1 h2 => ?_, fun h => ?_⟩
  · rw [arm_asymmetry_of, if_pos h, abs_of_nonneg hl, abs_of_nonneg hr]
  · subst h2; simp [arm_asymmetry_of]
  · subst h; simp [arm_asymmetry_of]

/-- C6 witness: left excursion 7, right excursion 0 gives ratio 1.0. -/
theorem C6_asymmetry_amended_witness : arm_asymmetry_of 7 0 = 1 :=
  (C6_asymmetry_amended 7 0 (by norm_num) (by norm_num)).2.2 rfl

/-- C8: before the 3-second grace period the failure detector reports no
failure, whatever the landmark content. -/
theorem C8_warmup_no_failure (ops : RealOps) (d : FailureDetector)
    (landmarks : List Keypoint) (timestamp : ℚ) (h : timestamp < 3) :
    (FailureDetector.check_failure ops d landmarks timestamp).1 = none := by
  unfold FailureDetector.check_failure
  split_ifs with h1 h2
  · rfl
  · rfl
  · rfl

/-- C8 witness: a full 33-landmark frame at 2 seconds yields no failure. -/
theorem C8_warmup_no_failure_witness :
    (FailureDetector.check_failure someOps (FailureDetector.init "left")
      (List.replicate 33 ⟨0, 0, 0, 1⟩) 2).1 = none :=
  C8_warmup_no_failure someOps (FailureDetector.init "left")
    (List.replicate 33 ⟨0, 0, 0, 1⟩) 2 (by norm_num)

/-- C10: a landmark list whose length is not 33 never triggers a failure at
any timestamp, and is silently ignored (the detector state is unchanged). -/
theorem C10_malformed_frame_ignored (ops : RealOps) (d : FailureDetector)
    (landmarks : List Keypoint) (timestamp : ℚ) (h : landmarks.length ≠ 33) :
    (FailureDetector.check_failure ops d landmarks timestamp).1 = none ∧
    (FailureDetector.check_failure ops d landmarks timestamp).2 = d := by
  unfold FailureDetector.check_failure
  rw [if_pos h]
  exact ⟨rfl, rfl⟩

/-- C10 witness: a 1-landmark frame at 10 seconds (past the grace period)
yields no failure and leaves the detector unchanged. -/
theorem C10_malformed_frame_ignored_witness :
    (FailureDetector.check_failure someOps (FailureDetector.init "left")
      [⟨0, 0, 0, 1⟩] 10).1 = none ∧
    (FailureDetector.check_failure someOps (FailureDetector.init "left")
      [⟨0, 0, 0, 1⟩] 10).2 = FailureDetector.init "left" :=
  C10_malformed_frame_ignored someOps (FailureDetector.init "left")
    [⟨0, 0, 0, 1⟩] 10 (by simp)

/-- C9: the externally measured clip duration passes validation exactly when
it lies in the inclusive range [5, 40]; outside that range `analyze_video`
fails with the corresponding duration error for every frame list (i.e.
before any frame processing), and 5.0 and 40.0 themselves are accepted. -/
theorem C9_duration_bounds (ops : RealOps)
    (filter_fn : List (List Keypoint) → List (List Keypoint))
    (detect : ℕ → ℤ → Option (List Keypoint)) (leg : String) (d : ℚ) :
    (duration_check d = Except.ok () ↔ (5 ≤ d ∧ d ≤ 40)) ∧
    (d < 5 → ∀ frames, analyze_video ops filter_fn detect leg d frames =
      Except.error "Video is too short") ∧
    (40 < d → ∀ frames, analyze_video ops filter_fn detect leg d frames =
      Except.error "Video is too long") := by
  refine ⟨?_, fun hd frames => ?_, fun hd frames => ?_⟩
  · unfold duration_check
    split_ifs with h1 h2
    · simp only [reduceCtorEq, false_iff]
      rintro ⟨h5, -⟩; linarith
    · simp only [reduceCtorEq, false_iff]
      rintro ⟨-, h40⟩; linarith
    · simp only [true_iff]
      push_neg at h1 h2
      exact ⟨h1, h2⟩
  · have hc : duration_check d = Except.error "Video is too short" := by
      unfold duration_check; rw [if_pos hd]
    unfold analyze_video
    rw [hc]
  · have hc : duration_check d = Except.error "Video is too long" := by
      unfold duration_check
      rw [if_neg (by push_neg; linarith), if_pos hd]
    unfold analyze_video
    rw [hc]

/-- Every dictionary lookup chain in `_calculate_stability_score` dies at
`REFERENCE_VALUES["arm_excursion_max"]`: the constants table defines
`arm_angle_max`, not `arm_excursion_max`, so the lookup raises `KeyError`
whatever the numeric arguments are. -/
lemma stability_score_keyerror (sway_std sway_velocity arm_excursion : ℚ)
    (corrections : ℕ) :
    _calculate_stability_score sway_std sway_velocity arm_excursion corrections =
      Except.error "KeyError: arm_excursion_max" := rfl

/-- `calculate_all` raises for every non-empty trajectory: the stability
score's reference lookup fails before the record is assembled. -/
lemma calculate_all_keyerror (ops : RealOps) (c : MetricsCalculator)
    (h : ¬c.landmarks.isEmpty) :
    calculate_all ops c = Except.error "KeyError: arm_excursion_max" := by
  unfold calculate_all
  rw [if_neg h]
  rfl

/-- C4: calling `process_frame` with a timestamp that is not strictly
greater than the previous call's timestamp fails fatally (the error of the
underlying tracker propagates, nothing is recovered), for every frame
content and detection oracle.  `hsync` states that the tracker has seen
exactly the processor's previous timestamp, which holds by construction
since the processor owns the tracker and is its only caller. -/
theorem C4_nonmonotonic_timestamp_fatal (p : PoseProcessor) (frame : ℕ)
    (timestamp_ms : ℤ) (hsync : p.landmarker.last_ms = p.last_timestamp_ms)
    (h : timestamp_ms ≤ p.last_timestamp_ms) :
    p.process_frame frame timestamp_ms =
      Except.error "Input timestamp must be monotonically increasing" := by
  have hle : timestamp_ms ≤ p.landmarker.last_ms := by rw [hsync]; exact h
  simp only [PoseProcessor.process_frame, detect_for_video, if_pos hle]

/-- C4 witness: a processor whose previous timestamp is 5 rejects a repeat
timestamp of 5. -/
theorem C4_nonmonotonic_timestamp_fatal_witness :
    PoseProcessor.process_frame ⟨⟨5, fun _ _ => none⟩, 1, 5⟩ 0 5 =
      Except.error "Input timestamp must be monotonically increasing" :=
  C4_nonmonotonic_timestamp_fatal ⟨⟨5, fun _ _ => none⟩, 1, 5⟩ 0 5 rfl (le_refl 5)

/-- C1: `calculate_all` is not total on non-empty input.  For the empty
filtered trajectory it does return the all-zero/score-1 degenerate record,
but for every structurally valid non-empty landmark sequence — here a single
full 33-keypoint frame — it raises `KeyError: arm_excursion_max` instead of
returning a metrics record, because metrics.py:231 reads
`REFERENCE_VALUES["arm_excursion_max"]` while constants/scoring.py defines
the key `arm_angle_max`.  Both parts hold for every interpretation of the
numeric primitives. -/
theorem C1_calculate_all_keyerror :
    (∀ ops : RealOps,
      calculate_all ops
        ⟨[List.replicate 33 ⟨0, 0, 0, 1⟩], [1], 1, "time_complete", "left"⟩ =
        Except.error "KeyError: arm_excursion_max") ∧
    (∀ ops : RealOps,
      calculate_all ops ⟨[], [], 0, "foot_touchdown", "left"⟩ =
        Except.ok _empty_metrics) := by
  constructor
  · intro ops
    exact calculate_all_keyerror ops _ (by simp [List.isEmpty])
  · intro ops
    rfl

/-- The duration percentage difference is 0 when the two hold times are
equal. -/
lemma bcDurationPct_self (L R : BilatMetrics) (h : L.hold_time = R.hold_time) :
    bcDurationPct L R = 0 := by
  unfold bcDurationPct bcDurationDifference
  rw [h]
  split_ifs with h0
  · simp
  · rfl

/-- C5: with nonnegative hold times, `dominant_leg` is `"balanced"` exactly
when the relative hold-time difference is strictly below 20% (so the 20%
boundary itself is not balanced); otherwise it names the leg with the larger
hold time; and when both hold times are 0 the reported percentage difference
is 0 and the result is `"balanced"`. -/
theorem C5_dominant_leg (a b : BilatMetrics) (ha : 0 ≤ a.hold_time)
    (hb : 0 ≤ b.hold_time) :
    (¬(a.hold_time = 0 ∧ b.hold_time = 0) →
      (((calculate_bilateral_comparison a b).dominant_leg = "balanced") ↔
        |a.hold_time - b.hold_time| / max a.hold_time b.hold_time < 1/5) ∧
      (1/5 ≤ |a.hold_time - b.hold_time| / max a.hold_time b.hold_time →
        (b.hold_time < a.hold_time →
          (calculate_bilateral_comparison a b).dominant_leg = "left") ∧
        (a.hold_time < b.hold_time →
          (calculate_bilateral_comparison a b).dominant_leg = "right"))) ∧
    (a.hold_time = 0 → b.hold_time = 0 →
      (calculate_bilateral_comparison a b).duration_difference_pct = 0 ∧
      (calculate_bilateral_comparison a b).dominant_leg = "balanced") := by
  have hdom : (calculate_bilateral_comparison a b).dominant_leg =
      bcDominantLeg a b := rfl
  have hpctf : (calculate_bilateral_comparison a b).duration_difference_pct =
      pyRound (bcDurationPct a b) 1 := rfl
  constructor
  · intro hnz
    have hmax : 0 < max a.hold_time b.hold_time := by
      rcases not_and_or.mp hnz with hz | hz
      · exact lt_of_lt_of_le (lt_of_le_of_ne ha (Ne.symm hz)) (le_max_left _ _)
      · exact lt_of_lt_of_le (lt_of_le_of_ne hb (Ne.symm hz)) (le_max_right _ _)
    have hpct : bcDurationPct a b =
        |a.hold_time - b.hold_time| / max a.hold_time b.hold_time * 100 := by
      unfold bcDurationPct bcDurationDifference
      rw [if_pos hmax]
    constructor
    · rw [hdom]
      unfold bcDominantLeg
      constructor
      · intro hbal
        by_contra hge
        push_neg at hge
        rw [if_neg (by rw [hpct]; push_neg; linarith)] at hbal
        split_ifs at hbal <;> simp_all
      · intro hlt
        rw [if_pos (by rw [hpct]; linarith)]
    · intro hge
      have hnb : ¬bcDurationPct a b < 20 := by rw [hpct]; push_neg; linarith
      constructor
      · intro hba
        rw [hdom]
        unfold bcDominantLeg
        rw [if_neg hnb, if_pos hba]
      · intro hab
        rw [hdom]
        unfold bcDominantLeg
        rw [if_neg hnb, if_neg (by push_neg; linarith)]
  · intro ha0 hb0
    have hpct0 : bcDurationPct a b = 0 := bcDurationPct_self a b (by rw [ha0, hb0])
    constructor
    · rw [hpctf, hpct0]
      norm_num [pyRound, roundHalfEven]
    · rw [hdom]
      unfold bcDominantLeg
      rw [if_pos (by rw [hpct0]; norm_num)]

/-- C5 witness: equal hold times of 10 seconds give a 0% difference and a
`"balanced"` dominant leg. -/
theorem C5_dominant_leg_witness :
    (calculate_bilateral_comparison ⟨10, 0, 0, 0, 0⟩ ⟨10, 0, 0, 0, 0⟩).dominant_leg =
      "balanced" := by
  have h := C5_dominant_leg ⟨10, 0, 0, 0, 0⟩ ⟨10, 0, 0, 0, 0⟩ (by norm_num) (by norm_num)
  exact ((h.1 (by norm_num)).1).mpr (by norm_num)

/-- `|left − right|` is swap-invariant. -/
lemma bcDurationDifference_comm (L R : BilatMetrics) :
    bcDurationDifference R L = bcDurationDifference L R := by
  unfold bcDurationDifference
  exact abs_sub_comm _ _

/-- The duration percentage difference is swap-invariant. -/
lemma bcDurationPct_comm (L R : BilatMetrics) :
    bcDurationPct R L = bcDurationPct L R := by
  unfold bcDurationPct
  rw [bcDurationDifference_comm, max_comm]

/-- The sway velocity difference is swap-invariant. -/
lemma bcSwayDifference_comm (L R : BilatMetrics) :
    bcSwayDifference R L = bcSwayDifference L R := by
  unfold bcSwayDifference
  exact abs_sub_comm _ _

/-- The sway symmetry score is swap-invariant. -/
lemma bcSwaySymmetry_comm (L R : BilatMetrics) :
    bcSwaySymmetry R L = bcSwaySymmetry L R := by
  unfold bcSwaySymmetry bcAvgSway
  rw [bcSwayDifference_comm, add_comm R.sway_velocity]

/-- The arm angle difference is swap-invariant. -/
lemma bcArmAngleDifference_comm (L R : BilatMetrics) :
    bcArmAngleDifference R L = bcArmAngleDifference L R := by
  unfold bcArmAngleDifference
  exact abs_sub_comm _ _

/-- The signed corrections difference negates under a swap. -/
lemma bcCorrectionsDifference_swap (L R : BilatMetrics) :
    bcCorrectionsDifference R L = -bcCorrectionsDifference L R := by
  unfold bcCorrectionsDifference
  ring

/-- The clamped overall symmetry score is swap-invariant. -/
lemma bcOverall_comm (L R : BilatMetrics) : bcOverall R L = bcOverall L R := by
  unfold bcOverall bcOverallRaw
  rw [bcDurationPct_comm, bcSwaySymmetry_comm, bcArmAngleDifference_comm,
    bcCorrectionsDifference_swap]
  push_cast
  rw [abs_neg]

/-- The symmetry assessment bucket is swap-invariant. -/
lemma bcAssessment_comm (L R : BilatMetrics) :
    bcAssessment R L = bcAssessment L R := by
  unfold bcAssessment
  rw [bcOverall_comm]

/-- The dominant leg's label is the swapped label after a swap. -/
lemma bcDominantLeg_swap (L R : BilatMetrics) :
    bcDominantLeg R L = swap_leg_label (bcDominantLeg L R) := by
  unfold bcDominantLeg
  rw [bcDurationPct_comm]
  by_cases hp : bcDurationPct L R < 20
  · rw [if_pos hp, if_pos hp]
    rfl
  · rw [if_neg hp, if_neg hp]
    rcases lt_trichotomy L.hold_time R.hold_time with hlt | heq | hgt
    · rw [if_pos hlt, if_neg (by push_neg; linarith)]
      rfl
    · exact absurd (bcDurationPct_self L R heq ▸ (by norm_num : (0:ℚ) < 20)) hp
    · rw [if_neg (by push_neg; linarith), if_pos hgt]
      rfl

/-- C7: the bilateral comparison is invariant under swapping its two inputs
on every magnitude-based field — in particular `overall_symmetry_score` and
`symmetry_assessment` — and the only fields that change are `dominant_leg`
(its label swaps) and `corrections_difference` (its sign flips). -/
theorem C7_swap_invariance (l r : BilatMetrics) :
    (calculate_bilateral_comparison r l).overall_symmetry_score =
      (calculate_bilateral_comparison l r).overall_symmetry_score ∧
    (calculate_bilateral_comparison r l).symmetry_assessment =
      (calculate_bilateral_comparison l r).symmetry_assessment ∧
    (calculate_bilateral_comparison r l).duration_difference =
      (calculate_bilateral_comparison l r).duration_difference ∧
    (calculate_bilateral_comparison r l).duration_difference_pct =
      (calculate_bilateral_comparison l r).duration_difference_pct ∧
    (calculate_bilateral_comparison r l).sway_difference =
      (calculate_bilateral_comparison l r).sway_difference ∧
    (calculate_bilateral_comparison r l).sway_symmetry_score =
      (calculate_bilateral_comparison l r).sway_symmetry_score ∧
    (calculate_bilateral_comparison r l).arm_angle_difference =
      (calculate_bilateral_comparison l r).arm_angle_difference ∧
    (calculate_bilateral_comparison r l).corrections_difference =
      -(calculate_bilateral_comparison l r).corrections_difference ∧
    (calculate_bilateral_comparison r l).dominant_leg =
      swap_leg_label (calculate_bilateral_comparison l r).dominant_leg := by
  unfold calculate_bilateral_comparison
  dsimp only
  refine ⟨?_, ?_, ?_, ?_, ?_, ?_, ?_, ?_, ?_⟩
  · rw [bcOverall_comm]
  · rw [bcAssessment_comm]
  · rw [bcDurationDifference_comm]
  · rw [bcDurationPct_comm]
  · rw [bcSwayDifference_comm]
  · rw [bcSwaySymmetry_comm]
  · rw [bcArmAngleDifference_comm]
  · rw [bcCorrectionsDifference_swap]
  · rw [bcDominantLeg_swap]

/-- A list of length at least 3 splits off its last three elements. -/
lemma exists_last_three (xs : List ℚ) (h : 3 ≤ xs.length) :
    ∃ l a b c, xs = l ++ [a, b, c] := by
  rcases hx : xs.reverse with _ | ⟨a, _ | ⟨b, _ | ⟨c, t⟩⟩⟩
  all_goals have hlen := congrArg List.length hx
  all_goals rw [List.length_reverse] at hlen
  · simp only [List.length_nil] at hlen; omega
  · simp only [List.length_cons, List.length_nil] at hlen; omega
  · simp only [List.length_cons, List.length_nil] at hlen; omega
  · refine ⟨t.reverse, c, b, a, ?_⟩
    have hxs := congrArg List.reverse hx
    rw [List.reverse_reverse] at hxs
    rw [hxs]
    simp

/-- A non-empty list whose elements are all below `a` sums below
`length * a`. -/
lemma sum_lt_length_mul (l : List ℚ) (a : ℚ) (hne : l ≠ [])
    (h : ∀ x ∈ l, x < a) : l.sum < l.length * a := by
  induction l with
  | nil => exact absurd rfl hne
  | cons x t ih =>
      rcases eq_or_ne t [] with rfl | hte
      · simpa using h x (by simp)
      · have hx := h x (by simp)
        have ht := ih hte (fun y hy => h y (by simp [hy]))
        simp only [List.sum_cons, List.length_cons]
        push_cast
        linarith

/-- C3: the claim fails: the strictly increasing positive hold-time sequence
[10, 10.1, 10.2, 10.3] of length 4 classifies as `"stable"`, not
`"improving"`, because its recent-window mean (10.2) does not exceed the
older mean (10) by more than 10%. -/
theorem C3_trend_counterexample :
    ([(10 : ℚ), 101/10, 102/10, 103/10].Chain' (· < ·)) ∧
    (∀ x ∈ [(10 : ℚ), 101/10, 102/10, 103/10], 0 < x) ∧
    4 ≤ ([(10 : ℚ), 101/10, 102/10, 103/10]).length ∧
    (_detect_trend [10, 101/10, 102/10, 103/10] ["a", "b", "c", "d"]).1 =
      "stable" := by
  refine ⟨?_, ?_, ?_, ?_⟩
  · norm_num [List.chain'_cons]
  · intro x hx
    simp only [List.mem_cons, List.not_mem_nil, or_false] at hx
    rcases hx with rfl | rfl | rfl | rfl <;> norm_num
  · simp
  · unfold _detect_trend
    dsimp only
    rw [if_neg (by norm_num), if_pos (by norm_num)]
    rw [if_neg (by norm_num [older_avg, recent_avg, older_window, recent_window]),
      if_neg (by norm_num [older_avg, recent_avg, older_window, recent_window])]

/-- C3 (amended): on a strictly increasing positive hold-time sequence of
length ≥ 4 the trend is `"improving"` exactly when the mean of the last 3
records exceeds the mean of all earlier records by more than 10%, is
`"stable"` otherwise, and is never `"declining"`. -/
theorem C3_trend_amended (scores : List ℚ) (dates : List String)
    (h4 : 4 ≤ scores.length) (hpos : ∀ x ∈ scores, 0 < x)
    (hmono : scores.Chain' (· < ·)) :
    ((_detect_trend scores dates).1 = "improving" ↔
      older_avg scores * (110/100) < recent_avg scores) ∧
    (¬(older_avg scores * (110/100) < recent_avg scores) →
      (_detect_trend scores dates).1 = "stable") ∧
    (_detect_trend scores dates).1 ≠ "declining" := by
  obtain ⟨l, a, b, c, rfl⟩ := exists_last_three scores (by omega)
  have hlen : (l ++ [a, b, c]).length = l.length + 3 := by simp
  have hlpos : 0 < l.length := by
    rw [hlen] at h4
    omega
  have hlne : l ≠ [] := List.length_pos.mp hlpos
  have h33 : l.length + 3 - 3 = l.length := by omega
  have hwr : recent_window (l ++ [a, b, c]) = [a, b, c] := by
    unfold recent_window
    rw [hlen, h33, List.drop_left]
  have hwo : older_window (l ++ [a, b, c]) = l := by
    unfold older_window
    rw [hlen, h33, List.take_left]
  have hra : recent_avg (l ++ [a, b, c]) = (a + b + c) / 3 := by
    unfold recent_avg
    rw [hwr]
    norm_num
    ring
  have hoa : older_avg (l ++ [a, b, c]) = l.sum / l.length := by
    unfold older_avg
    rw [hwo]
  have hpw := List.chain'_iff_pairwise.mp hmono
  obtain ⟨hpl, hpr, hcross⟩ := List.pairwise_append.mp hpw
  have hxa : ∀ x ∈ l, x < a := fun x hx => hcross x hx a (by simp)
  have habc := List.pairwise_cons.mp hpr
  have hab : a < b := habc.1 b (by simp)
  have hac : a < c := habc.1 c (by simp)
  have hlq : (0 : ℚ) < l.length := by exact_mod_cast hlpos
  have hoa_lt : older_avg (l ++ [a, b, c]) < a := by
    rw [hoa, div_lt_iff₀ hlq, mul_comm]
    exact sum_lt_length_mul l a hlne hxa
  have hra_gt : a < recent_avg (l ++ [a, b, c]) := by
    rw [hra, lt_div_iff₀ (by norm_num : (0:ℚ) < 3)]
    linarith
  have hoa_pos : 0 < older_avg (l ++ [a, b, c]) := by
    rw [hoa]
    exact div_pos
      (List.sum_pos l (fun x hx => hpos x (List.mem_append_left _ hx)) hlne) hlq
  have hnd : ¬(recent_avg (l ++ [a, b, c]) < older_avg (l ++ [a, b, c]) * (90/100)) := by
    intro hc
    linarith
  have hnl2 : ¬((l ++ [a, b, c]).length < 2) := by
    rw [hlen]
    omega
  unfold _detect_trend
  dsimp only
  rw [if_neg hnl2, if_pos h4]
  by_cases himp : older_avg (l ++ [a, b, c]) * (110/100) < recent_avg (l ++ [a, b, c])
  · rw [if_pos himp]
    exact ⟨⟨fun _ => himp, fun _ => rfl⟩, fun hc => absurd himp hc, by simp⟩
  · rw [if_neg himp, if_neg hnd]
    exact ⟨⟨fun hc => absurd hc (by simp), fun hc => absurd hc himp⟩,
      fun _ => rfl, by simp⟩

/-- C3 witness: the strictly increasing sequence [8, 9, 10, 11, 14, 16]
(recent mean 13.67 vs older mean 9) classifies as `"improving"`. -/
theorem C3_trend_amended_witness :
    (_detect_trend [8, 9, 10, 11, 14, 16] ["a", "b", "c", "d", "e", "f"]).1 =
      "improving" := by
  have h := C3_trend_amended [8, 9, 10, 11, 14, 16] ["a", "b", "c", "d", "e", "f"]
    (by simp)
    (by
      intro x hx
      simp only [List.mem_cons, List.not_mem_nil, or_false] at hx
      rcases hx with rfl | rfl | rfl | rfl | rfl | rfl <;> norm_num)
    (by norm_num [List.chain'_cons])
  exact h.1.mpr (by norm_num [older_avg, recent_avg, older_window, recent_window])
